import Mathlib

/-!
Shallow embedding of the nodejs-lsd-logger write path (src/index.ts).

The source is a Node.js library that appends log messages to minute-bucketed
files.  Small messages (JavaScript length at most MAX_MESSAGE_SIZE) are
appended without coordination; larger messages go to a `_big` file guarded by
an exclusive non-blocking advisory flock.  Writes that fail because the file
is locked are kept in an in-memory queue and replayed by a self-rescheduling
timer.

The embedding models the external file-system primitives by an `FsEnv` record
of outcomes (open / lock / write / unlock success), records the ordered
actions a write attempt performs before its promise settles in a trace, and
threads the process umask and the module-level queue/timer state explicitly.
-/

namespace LsdLogger

/-- Error code type: `type ERRORS = 'FILE_LOCKED'` (src/index.ts line 5). -/
inductive ErrCode where
  | FILE_LOCKED
deriving DecidableEq, Repr

/-- `LogException` (src/index.ts lines 17-25): an error message with an optional code. -/
structure LogException where
  msg : String
  code : Option ErrCode := none
deriving DecidableEq, Repr

/-- `MAX_MESSAGE_SIZE` (src/index.ts line 13). -/
def MAX_MESSAGE_SIZE : Nat := 4096

/-- `FILE_PERMISSION` (src/index.ts line 14). -/
def FILE_PERMISSION : Nat := 0o666

/-- `IMessage` (src/index.ts lines 7-11). -/
structure IMessage where
  filePath : String
  message : String
  isLargeData : Bool
deriving DecidableEq, Repr

/-- A wall-clock instant decomposed into calendar fields, the `new Date()`
capability consumed by `getFileName` (src/index.ts line 140). -/
structure DateTime where
  year : Nat
  month : Nat
  day : Nat
  hour : Nat
  minute : Nat
  second : Nat
deriving DecidableEq, Repr

/-- Calendar validity of the clock fields; the year range is what the
`year: 'numeric'` formatter renders as four digits. -/
def ValidDate (t : DateTime) : Prop :=
  1000 ≤ t.year ∧ t.year ≤ 9999 ∧ 1 ≤ t.month ∧ t.month ≤ 12 ∧
    1 ≤ t.day ∧ t.day ≤ 31 ∧ t.hour ≤ 23 ∧ t.minute ≤ 59 ∧ t.second ≤ 59

instance (t : DateTime) : Decidable (ValidDate t) := by
  unfold ValidDate
  infer_instance

/-- Character for one decimal digit. -/
def digitChar (d : Nat) : Char := Char.ofNat (48 + d % 10)

/-- Little-endian decimal digits of a number; the first argument is fuel making
the recursion structural. -/
def decDigitsRev : Nat → Nat → List Nat
  | 0, _ => []
  | _ + 1, 0 => []
  | fuel + 1, n + 1 => ((n + 1) % 10) :: decDigitsRev fuel ((n + 1) / 10)

/-- Decimal numeral of a natural number, the rendering produced by the
`Intl.DateTimeFormat` numeric formatters (src/index.ts lines 141-147). -/
def decStr (n : Nat) : String :=
  if n = 0 then "0" else String.mk (((decDigitsRev n n).reverse).map digitChar)

/-- Two-digit zero padding: the `'2-digit'` Intl formats for month, day and
hour, and the explicit `padStart(2, '0')` applied to the minute
(src/index.ts lines 142-147). -/
def pad2 (n : Nat) : String :=
  if n < 10 then "0" ++ decStr n else decStr n

/-- `getFileName` (src/index.ts lines 139-150): four-digit year, two-digit
month, day, 24-hour hour and minute, then the literal seconds `00`. -/
def getFileName (now : DateTime) : String :=
  decStr now.year ++ pad2 now.month ++ pad2 now.day ++ pad2 now.hour ++
    pad2 now.minute ++ "00"

/-- Number of UTF-16 code units a character occupies; JavaScript `String.length`
counts these (code points at or above 0x10000 are surrogate pairs). -/
def utf16Units (c : Char) : Nat := if c.toNat < 0x10000 then 1 else 2

/-- JavaScript `String.length`, the quantity the source compares against
`MAX_MESSAGE_SIZE` in `message.length > MAX_MESSAGE_SIZE` (src/index.ts line 61). -/
def jsLength (s : String) : Nat := (s.data.map utf16Units).sum

/-- UTF-8 encoded byte length of a string.  The source never computes this; it
is defined here to contrast with `jsLength`. -/
def utf8Bytes (s : String) : Nat := (s.data.map Char.utf8Size).sum

/-- The pure core of `writeLog` lines 58-71: derive the bucket name from the
clock, classify the message by `message.length > MAX_MESSAGE_SIZE`, append
`_big` to the file name for large data, and build the `IMessage` record. -/
def buildLogMessage (dirPath : String) (now : DateTime) (message : String) : IMessage :=
  let fileName := getFileName now
  if jsLength message > MAX_MESSAGE_SIZE then
    { filePath := dirPath ++ "/" ++ (fileName ++ "_big") ++ ".log"
      message := message
      isLargeData := true }
  else
    { filePath := dirPath ++ "/" ++ fileName ++ ".log"
      message := message
      isLargeData := false }

/-- Outcome of each external file-system primitive during one write attempt. -/
structure FsEnv where
  openOk : Bool
  lockOk : Bool
  writeOk : Bool
  unlockOk : Bool
deriving DecidableEq, Repr

/-- File-system actions a write attempt can perform. -/
inductive FsAction where
  | openFile
  | lock
  | write
  | unlock
  | close
deriving DecidableEq, Repr

/-- Result of one write attempt: resolved, or rejected with a `LogException`. -/
inductive WriteResult where
  | ok
  | error (e : LogException)
deriving DecidableEq, Repr

/-- Whether a write attempt fails with the distinguished FILE_LOCKED code. -/
def WriteResult.isFileLocked : WriteResult → Bool
  | .ok => false
  | .error e => decide (e.code = some ErrCode.FILE_LOCKED)

/-- Result of a write attempt together with the ordered file-system actions it
performed before its promise settled. -/
structure WriteOutcome where
  result : WriteResult
  trace : List FsAction
deriving DecidableEq, Repr

/-- `writeToFile` (src/index.ts lines 152-165): append `message + EOL` through
a write stream opened in append mode; resolve on finish, reject with a code-less
`LogException` on a stream error.  No locking is involved on this path. -/
def writeToFile (filePath : String) (env : FsEnv) : WriteOutcome :=
  if env.writeOk then
    { result := .ok, trace := [.openFile, .write, .close] }
  else
    { result := .error { msg := "Can no write to file " ++ filePath }
      trace := [.openFile, .write] }

/-- `writeToFileWithLock` (src/index.ts lines 167-206): open the file in append
mode, take the exclusive non-blocking flock, write `message + EOL`, release the
lock and close.  Open failure rejects before any handle exists; lock-acquisition
failure closes the handle and rejects with the FILE_LOCKED code; write failure
closes then unlocks and rejects without the code; unlock failure closes and
rejects without the code; otherwise the handle is closed and the promise
resolves.  The trace records the actions performed up to the settling point. -/
def writeToFileWithLock (filePath : String) (env : FsEnv) : WriteOutcome :=
  if !env.openOk then
    { result := .error { msg := "Can not open file. Error" }
      trace := [.openFile] }
  else if !env.lockOk then
    { result := .error { msg := "Can no lock file " ++ filePath
                         code := some ErrCode.FILE_LOCKED }
      trace := [.openFile, .lock, .close] }
  else if !env.writeOk then
    { result := .error { msg := "Can not write to file " ++ filePath }
      trace := [.openFile, .lock, .write, .close, .unlock] }
  else if !env.unlockOk then
    { result := .error { msg := "Could not unlock file " ++ filePath }
      trace := [.openFile, .lock, .write, .unlock, .close] }
  else
    { result := .ok, trace := [.openFile, .lock, .write, .unlock, .close] }

/-- `writeData` (src/index.ts lines 127-137): save the umask and set it to 0,
dispatch on `isLargeData` to the locked or unlocked writer, then execute
`process.umask(oldMask)`.  The restore statement sits after the `await` with no
try/finally, so it runs only when the awaited write resolves; when the write
rejects the exception propagates first and the process umask stays 0.  Returns
the write outcome and the process umask after the call settles. -/
def writeData (m : IMessage) (env : FsEnv) (umask : Nat) : WriteOutcome × Nat :=
  let oldMask := umask
  let out := if m.isLargeData then writeToFileWithLock m.filePath env
             else writeToFile m.filePath env
  match out.result with
  | .ok => (out, oldMask)
  | .error _ => (out, 0)

/-- Module-level mutable state: the `STORED_MESSAGES` queue (src/index.ts
line 15) and the `repeatTimer` handle (line 27); a pending timer is `some d`
where `d` is the delay it was armed with. -/
structure LoggerState where
  queue : List IMessage
  repeatTimer : Option Nat
deriving DecidableEq, Repr

/-- The scheduling part of `tryToWriteStoredData` (src/index.ts lines 88-99 and
101/124): with an empty queue, clear the timer handle and return; with a timer
already pending, return without doing anything; otherwise arm a timer with the
fixed 100 ms delay. -/
def tryToWriteStoredData (s : LoggerState) : LoggerState :=
  if s.queue.isEmpty then { s with repeatTimer := none }
  else if s.repeatTimer.isSome then s
  else { s with repeatTimer := some 100 }

/-- The timer callback of `tryToWriteStoredData` (src/index.ts lines 101-124):
clear the fired timer, shift one message off the head of the queue, attempt
`writeData`, unshift the message back onto the head on any failure, and call
`tryToWriteStoredData` again only when the queue is still non-empty.  Returns
the new state and the process umask after the tick. -/
def retryTick (s : LoggerState) (env : FsEnv) (umask : Nat) : LoggerState × Nat :=
  let s0 : LoggerState := { s with repeatTimer := none }
  match s0.queue with
  | [] => (s0, umask)
  | data :: rest =>
      let r := writeData data env umask
      let s1 : LoggerState :=
        match r.1.result with
        | .ok => { s0 with queue := rest }
        | .error _ => { s0 with queue := data :: rest }
      if s1.queue.isEmpty then (s1, r.2) else (tryToWriteStoredData s1, r.2)

/-- Result of a `writeLog` call: the promise resolves or rejects with a plain
`Error` carrying the message text. -/
inductive LogResult where
  | resolved
  | rejected (msg : String)
deriving DecidableEq, Repr

/-- `writeLog` after the directory step (src/index.ts lines 58-86): build the
message record, attempt `writeData`; on a failure carrying the FILE_LOCKED code
push the record onto the tail of `STORED_MESSAGES`, call `tryToWriteStoredData`
and resolve; on any other failure reject with `new Error(logError.message)`.
The directory existence check and creation (lines 34-56) are the external
collaborator the specification scopes out. -/
def writeLog (dirPath : String) (now : DateTime) (message : String) (env : FsEnv)
    (s : LoggerState) (umask : Nat) : LogResult × LoggerState × Nat :=
  let logMessageData := buildLogMessage dirPath now message
  let r := writeData logMessageData env umask
  match r.1.result with
  | .ok => (.resolved, s, r.2)
  | .error e =>
      if e.code = some ErrCode.FILE_LOCKED then
        let s1 := tryToWriteStoredData { s with queue := s.queue ++ [logMessageData] }
        (.resolved, s1, r.2)
      else
        (.rejected e.msg, s, r.2)

/-- Invariant tying the timer handle to the queue: a pending retry timer means
the queue is non-empty (equivalently, the timer is cleared whenever the queue
is empty). -/
def TimerInv (s : LoggerState) : Prop := s.repeatTimer.isSome = true → s.queue ≠ []

instance (s : LoggerState) : Decidable (TimerInv s) := by
  unfold TimerInv
  infer_instance

/-- Sample clock instant 2023-02-12 16:26:03 used to instantiate theorems. -/
def sampleNow : DateTime := ⟨2023, 2, 12, 16, 26, 3⟩

/-- Environment where every file-system primitive succeeds. -/
def envAllOk : FsEnv := ⟨true, true, true, true⟩

/-- Environment where only the lock acquisition fails (contention). -/
def envLockBusy : FsEnv := ⟨true, false, true, true⟩

/-- Environment where only the write primitive fails. -/
def envWriteFail : FsEnv := ⟨true, true, false, true⟩

/-- Sample small-message record. -/
def smallMsg : IMessage :=
  { filePath := "d/20230212162600.log", message := "hello", isLargeData := false }

/-- A 4096-character message of two-byte characters: 4096 UTF-16 code units
but 8192 UTF-8 bytes. -/
def wideMessage : String := String.mk (List.replicate 4096 'é')

/-- A 4097-character one-byte-per-character message, above the threshold. -/
def hugeMessage : String := String.mk (List.replicate 4097 'a')

/-! ### Helper lemmas -/

theorem length_mk (l : List Char) : (String.mk l).length = l.length := rfl

theorem decDigitsRev_zero (fuel : Nat) : decDigitsRev fuel 0 = [] := by
  cases fuel <;> rfl

theorem decDigitsRev_succ (fuel n : Nat) :
    decDigitsRev (fuel + 1) (n + 1) = ((n + 1) % 10) :: decDigitsRev fuel ((n + 1) / 10) := rfl

theorem decDigitsRev_length :
    ∀ k fuel n : Nat, 10 ^ k ≤ n → n < 10 ^ (k + 1) → k < fuel →
      (decDigitsRev fuel n).length = k + 1 := by
  intro k
  induction k with
  | zero =>
      intro fuel n h1 h2 hf
      cases fuel with
      | zero => omega
      | succ f =>
          cases n with
          | zero => simp at h1
          | succ m =>
              rw [decDigitsRev_succ]
              have hd : (m + 1) / 10 = 0 := Nat.div_eq_of_lt (by simpa using h2)
              rw [hd, decDigitsRev_zero]
              rfl
  | succ k ih =>
      intro fuel n h1 h2 hf
      cases fuel with
      | zero => omega
      | succ f =>
          cases n with
          | zero =>
              have : (0 : Nat) < 10 ^ (k + 1) := pow_pos (by norm_num) _
              omega
          | succ m =>
              rw [decDigitsRev_succ]
              have hq1 : 10 ^ k ≤ (m + 1) / 10 := by
                rw [Nat.le_div_iff_mul_le (by norm_num : (0 : Nat) < 10)]
                calc 10 ^ k * 10 = 10 ^ (k + 1) := (pow_succ 10 k).symm
                  _ ≤ m + 1 := h1
              have hq2 : (m + 1) / 10 < 10 ^ (k + 1) := by
                rw [Nat.div_lt_iff_lt_mul (by norm_num : (0 : Nat) < 10)]
                calc m + 1 < 10 ^ (k + 1 + 1) := h2
                  _ = 10 ^ (k + 1) * 10 := pow_succ 10 (k + 1)
              have hlen := ih f ((m + 1) / 10) hq1 hq2 (by omega)
              simp [List.length_cons, hlen]

theorem decStr_length_of_le9 (n : Nat) (h : n ≤ 9) : (decStr n).length = 1 := by
  rcases Nat.eq_zero_or_pos n with h0 | h0
  · subst h0; rfl
  · unfold decStr
    rw [if_neg (by omega)]
    rw [length_mk, List.length_map, List.length_reverse]
    exact decDigitsRev_length 0 n n (by simpa using h0) (by norm_num; omega) h0

theorem decStr_length_two (n : Nat) (h1 : 10 ≤ n) (h2 : n ≤ 99) :
    (decStr n).length = 2 := by
  unfold decStr
  rw [if_neg (by omega)]
  rw [length_mk, List.length_map, List.length_reverse]
  exact decDigitsRev_length 1 n n (by norm_num; omega) (by norm_num; omega) (by omega)

theorem decStr_length_four (y : Nat) (h1 : 1000 ≤ y) (h2 : y ≤ 9999) :
    (decStr y).length = 4 := by
  unfold decStr
  rw [if_neg (by omega)]
  rw [length_mk, List.length_map, List.length_reverse]
  exact decDigitsRev_length 3 y y (by norm_num; omega) (by norm_num; omega) (by omega)

theorem pad2_length (n : Nat) (h : n ≤ 99) : (pad2 n).length = 2 := by
  unfold pad2
  by_cases h10 : n < 10
  · rw [if_pos h10, String.length_append, decStr_length_of_le9 n (by omega)]
    rfl
  · rw [if_neg h10, decStr_length_two n (by omega) h]

theorem jsLength_mk_replicate (n : Nat) (c : Char) :
    jsLength (String.mk (List.replicate n c)) = n * utf16Units c := by
  show (List.map utf16Units (List.replicate n c)).sum = n * utf16Units c
  rw [List.map_replicate, List.sum_replicate, smul_eq_mul]

theorem utf8Bytes_mk_replicate (n : Nat) (c : Char) :
    utf8Bytes (String.mk (List.replicate n c)) = n * c.utf8Size := by
  show (List.map Char.utf8Size (List.replicate n c)).sum = n * c.utf8Size
  rw [List.map_replicate, List.sum_replicate, smul_eq_mul]

theorem writeData_fst (m : IMessage) (env : FsEnv) (umask : Nat) :
    (writeData m env umask).1 =
      if m.isLargeData then writeToFileWithLock m.filePath env
      else writeToFile m.filePath env := by
  cases hm : m.isLargeData
  · simp only [writeData, hm, Bool.false_eq_true, if_false]
    cases hr : (writeToFile m.filePath env).result <;> simp [hr]
  · simp only [writeData, hm, if_true]
    cases hr : (writeToFileWithLock m.filePath env).result <;> simp [hr]

theorem tryToWriteStoredData_queue (s : LoggerState) :
    (tryToWriteStoredData s).queue = s.queue := by
  unfold tryToWriteStoredData
  split
  · rfl
  · split <;> rfl

theorem retryTick_eq (m : IMessage) (rest : List IMessage) (rt : Option Nat)
    (env : FsEnv) (umask : Nat) :
    retryTick ⟨m :: rest, rt⟩ env umask =
      (match (writeData m env umask).1.result with
       | .ok => if rest.isEmpty then ⟨rest, none⟩ else tryToWriteStoredData ⟨rest, none⟩
       | .error _ => tryToWriteStoredData ⟨m :: rest, none⟩,
       (writeData m env umask).2) := by
  unfold retryTick
  cases hres : (writeData m env umask).1.result <;> simp [hres]
  split <;> rfl

theorem retryTick_nil (rt : Option Nat) (env : FsEnv) (umask : Nat) :
    retryTick ⟨[], rt⟩ env umask = (⟨[], none⟩, umask) := rfl

theorem timerInv_tryToWriteStoredData (s : LoggerState) :
    TimerInv (tryToWriteStoredData s) := by
  obtain ⟨q, rt⟩ := s
  cases q with
  | nil =>
      intro hsome
      simp [tryToWriteStoredData] at hsome
  | cons a l =>
      intro _
      rw [tryToWriteStoredData_queue]
      simp

theorem timerInv_retryTick (s : LoggerState) (env : FsEnv) (umask : Nat) :
    TimerInv (retryTick s env umask).1 := by
  obtain ⟨q, rt⟩ := s
  cases q with
  | nil =>
      rw [retryTick_nil]
      intro hsome
      simp at hsome
  | cons m rest =>
      rw [retryTick_eq]
      cases hres : (writeData m env umask).1.result with
      | ok =>
          by_cases hre : rest.isEmpty
          · simp [hre, TimerInv]
          · simpa [hre] using timerInv_tryToWriteStoredData ⟨rest, none⟩
      | error e =>
          simpa using timerInv_tryToWriteStoredData ⟨m :: rest, none⟩

theorem length_zeros : ("00" : String).length = 2 := rfl

theorem lock_not_mem_writeToFile_trace (fp : String) (env : FsEnv) :
    FsAction.lock ∉ (writeToFile fp env).trace := by
  unfold writeToFile
  split <;> simp

theorem lock_mem_writeToFileWithLock_trace (fp : String) (env : FsEnv)
    (ho : env.openOk = true) : FsAction.lock ∈ (writeToFileWithLock fp env).trace := by
  obtain ⟨o, l, w, u⟩ := env
  cases o
  · simp at ho
  · cases l <;> cases w <;> cases u <;> simp [writeToFileWithLock]

/-! ### Claim theorems -/

/-- C3: for every valid wall-clock instant, getFileName returns the fixed-width
14-character string YYYYMMDDhhmm00 — a four-digit year and two-digit zero-padded
month, day, 24-hour hour and minute, followed by the literal characters 00 —
and any two instants within the same calendar minute yield identical strings. -/
theorem C3_fileName_fixed_width (t t' : DateTime) (h : ValidDate t)
    (hy : t.year = t'.year) (hmo : t.month = t'.month) (hd : t.day = t'.day)
    (hh : t.hour = t'.hour) (hmi : t.minute = t'.minute) :
    (getFileName t).length = 14 ∧
      (∃ p : String, p.length = 12 ∧ getFileName t = p ++ "00") ∧
      getFileName t = getFileName t' := by
  obtain ⟨h1, h2, h3, h4, h5, h6, h7, h8, -⟩ := h
  refine ⟨?_,
    ⟨decStr t.year ++ (pad2 t.month ++ (pad2 t.day ++ (pad2 t.hour ++ pad2 t.minute))),
      ?_, ?_⟩, ?_⟩
  · simp [getFileName, String.length_append, length_zeros,
      decStr_length_four t.year h1 h2, pad2_length t.month (by omega),
      pad2_length t.day (by omega), pad2_length t.hour (by omega),
      pad2_length t.minute (by omega)]
  · simp [String.length_append, decStr_length_four t.year h1 h2,
      pad2_length t.month (by omega), pad2_length t.day (by omega),
      pad2_length t.hour (by omega), pad2_length t.minute (by omega)]
  · simp [getFileName, String.append_assoc]
  · unfold getFileName
    rw [hy, hmo, hd, hh, hmi]

theorem C3_fileName_fixed_width_witness :
    (getFileName sampleNow).length = 14 ∧
      (∃ p : String, p.length = 12 ∧ getFileName sampleNow = p ++ "00") ∧
      getFileName sampleNow = getFileName ⟨2023, 2, 12, 16, 26, 59⟩ :=
  C3_fileName_fixed_width sampleNow ⟨2023, 2, 12, 16, 26, 59⟩ (by decide)
    rfl rfl rfl rfl rfl

/-- C4: a submitted message is classified large exactly when its JavaScript
length exceeds MAX_MESSAGE_SIZE; at or below the threshold the target file
name has no _big suffix and writeData takes the unlocked writeToFile path,
attempting no lock; above the threshold the file name carries the _big suffix
before .log and writeData takes the lock-guarded writeToFileWithLock path. -/
theorem C4_size_threshold_routing (dirPath : String) (now : DateTime)
    (message : String) (env : FsEnv) (umask : Nat) :
    ((buildLogMessage dirPath now message).isLargeData = true ↔
        jsLength message > MAX_MESSAGE_SIZE) ∧
      (jsLength message ≤ MAX_MESSAGE_SIZE →
        (buildLogMessage dirPath now message).filePath =
            dirPath ++ "/" ++ getFileName now ++ ".log" ∧
          (writeData (buildLogMessage dirPath now message) env umask).1 =
            writeToFile (buildLogMessage dirPath now message).filePath env ∧
          FsAction.lock ∉
            (writeData (buildLogMessage dirPath now message) env umask).1.trace) ∧
      (jsLength message > MAX_MESSAGE_SIZE →
        (buildLogMessage dirPath now message).filePath =
            dirPath ++ "/" ++ (getFileName now ++ "_big") ++ ".log" ∧
          (writeData (buildLogMessage dirPath now message) env umask).1 =
            writeToFileWithLock (buildLogMessage dirPath now message).filePath env ∧
          (env.openOk = true →
            FsAction.lock ∈
              (writeData (buildLogMessage dirPath now message) env umask).1.trace)) := by
  by_cases hbig : jsLength message > MAX_MESSAGE_SIZE
  · have hL : (buildLogMessage dirPath now message).isLargeData = true := by
      simp [buildLogMessage, hbig]
    have hdisp : (writeData (buildLogMessage dirPath now message) env umask).1 =
        writeToFileWithLock (buildLogMessage dirPath now message).filePath env := by
      rw [writeData_fst]
      simp [hL]
    refine ⟨by simp [hL, hbig], fun hle => absurd hbig (by omega),
      fun _ => ⟨?_, hdisp, fun ho => ?_⟩⟩
    · simp [buildLogMessage, hbig]
    · rw [hdisp]
      exact lock_mem_writeToFileWithLock_trace _ env ho
  · have hL : (buildLogMessage dirPath now message).isLargeData = false := by
      simp [buildLogMessage, hbig]
    have hdisp : (writeData (buildLogMessage dirPath now message) env umask).1 =
        writeToFile (buildLogMessage dirPath now message).filePath env := by
      rw [writeData_fst]
      simp [hL]
    refine ⟨by simp [hL, hbig], fun _ => ⟨?_, hdisp, ?_⟩, fun hb => absurd hb hbig⟩
    · simp [buildLogMessage, hbig]
    · rw [hdisp]
      exact lock_not_mem_writeToFile_trace _ env

theorem C4_size_threshold_routing_witness :
    (buildLogMessage "d" sampleNow "hello").filePath =
        "d" ++ "/" ++ getFileName sampleNow ++ ".log" ∧
      FsAction.lock ∉
        (writeData (buildLogMessage "d" sampleNow "hello") envAllOk 18).1.trace ∧
      (buildLogMessage "d" sampleNow hugeMessage).filePath =
        "d" ++ "/" ++ (getFileName sampleNow ++ "_big") ++ ".log" ∧
      FsAction.lock ∈
        (writeData (buildLogMessage "d" sampleNow hugeMessage) envAllOk 18).1.trace := by
  have hbig : jsLength hugeMessage > MAX_MESSAGE_SIZE := by
    rw [hugeMessage, jsLength_mk_replicate]
    norm_num [show utf16Units 'a' = 1 from rfl, MAX_MESSAGE_SIZE]
  have h1 := C4_size_threshold_routing "d" sampleNow "hello" envAllOk 18
  have h2 := C4_size_threshold_routing "d" sampleNow hugeMessage envAllOk 18
  exact ⟨(h1.2.1 (by decide)).1, (h1.2.1 (by decide)).2.2,
    (h2.2.2 hbig).1, (h2.2.2 hbig).2.2 rfl⟩

/-- C10: the 4096 threshold is compared against the message string length in
UTF-16 code units, never against the encoded byte length: classification is
exactly jsLength message > MAX_MESSAGE_SIZE, and a 4096-character message of
two-byte characters (8192 UTF-8 bytes, above the threshold) is still
classified small. -/
theorem C10_threshold_counts_utf16_units (dirPath : String) (now : DateTime) :
    (∀ message : String,
        (buildLogMessage dirPath now message).isLargeData =
          decide (jsLength message > MAX_MESSAGE_SIZE)) ∧
      jsLength wideMessage = 4096 ∧
      utf8Bytes wideMessage = 8192 ∧
      MAX_MESSAGE_SIZE < utf8Bytes wideMessage ∧
      (buildLogMessage dirPath now wideMessage).isLargeData = false := by
  have hjs : jsLength wideMessage = 4096 := by
    rw [wideMessage, jsLength_mk_replicate]
    norm_num [show utf16Units 'é' = 1 from rfl]
  have hutf : utf8Bytes wideMessage = 8192 := by
    rw [wideMessage, utf8Bytes_mk_replicate]
    norm_num [show Char.utf8Size 'é' = 2 from rfl]
  refine ⟨?_, hjs, hutf, by rw [hutf]; decide, ?_⟩
  · intro message
    by_cases hbig : jsLength message > MAX_MESSAGE_SIZE <;>
      simp [buildLogMessage, hbig]
  · simp [buildLogMessage, hjs, MAX_MESSAGE_SIZE]

/-- C5: the lock-guarded writer fails with the distinguished FILE_LOCKED code
exactly when the open succeeded and the lock acquisition failed — and the
handle is closed in that case — while every other failure of the path (open,
write or unlock) carries no FILE_LOCKED code, making contention the only
retryable condition. -/
theorem C5_fileLocked_iff_lock_contention (fp : String) (env : FsEnv) :
    ((writeToFileWithLock fp env).result.isFileLocked = true ↔
        env.openOk = true ∧ env.lockOk = false) ∧
      (env.openOk = true → env.lockOk = false →
        FsAction.close ∈ (writeToFileWithLock fp env).trace) := by
  obtain ⟨o, l, w, u⟩ := env
  cases o <;> cases l <;> cases w <;> cases u <;>
    simp [writeToFileWithLock, WriteResult.isFileLocked]

theorem C5_fileLocked_iff_lock_contention_witness :
    (writeToFileWithLock "d/20230212162600_big.log" envLockBusy).result.isFileLocked
        = true ∧
      FsAction.close ∈ (writeToFileWithLock "d/20230212162600_big.log" envLockBusy).trace :=
  ⟨((C5_fileLocked_iff_lock_contention "d/20230212162600_big.log" envLockBusy).1).mpr
      ⟨rfl, rfl⟩,
    (C5_fileLocked_iff_lock_contention "d/20230212162600_big.log" envLockBusy).2 rfl rfl⟩

/-- C9: whenever the open succeeded, the lock-guarded writer closes the file
handle before its promise settles — on the lock-failure, write-failure,
unlock-failure and success paths alike — so a completed writeToFileWithLock
never leaks an open handle. -/
theorem C9_locked_writer_closes_handle (fp : String) (env : FsEnv)
    (ho : env.openOk = true) :
    FsAction.close ∈ (writeToFileWithLock fp env).trace := by
  obtain ⟨o, l, w, u⟩ := env
  cases o
  · simp at ho
  · cases l <;> cases w <;> cases u <;> simp [writeToFileWithLock]

theorem C9_locked_writer_closes_handle_witness :
    FsAction.close ∈ (writeToFileWithLock "d/20230212162600_big.log" envAllOk).trace :=
  C9_locked_writer_closes_handle "d/20230212162600_big.log" envAllOk rfl

/-- C2: the claim fails on the code — writeData saves the prior umask and sets
it to 0, but the restore sits after the await with no try/finally, so at a
failing write the call rejects with the umask left 0 rather than the prior 18;
only the successful path restores it. -/
theorem C2_umask_left_zero_on_failure :
    (writeData smallMsg envWriteFail 18).1.result =
        WriteResult.error
          { msg := "Can no write to file d/20230212162600.log", code := none } ∧
      (writeData smallMsg envWriteFail 18).2 = 0 ∧
      (writeData smallMsg envAllOk 18).2 = 18 ∧
      (18 : Nat) ≠ 0 := by decide

/-- C1: counterexample — a retry tick whose writeData fails with a code-less
error (not FILE_LOCKED) re-inserts the popped message at the head of the queue
instead of dropping it: the catch in the timer callback never inspects the
error code. -/
theorem C1_non_locked_retry_failure_not_dropped :
    (writeData smallMsg envWriteFail 0).1.result =
        WriteResult.error
          { msg := "Can no write to file d/20230212162600.log", code := none } ∧
      (retryTick ⟨[smallMsg], some 100⟩ envWriteFail 0).1.queue = [smallMsg] := by
  decide

/-- C1 (amended): for every message popped by a retry tick exactly two outcomes
occur — on write success the message is removed (the queue becomes the tail),
and on any write failure, FILE_LOCKED or not, the message is re-inserted at the
head of the queue, preserving its original position. -/
theorem C1_retry_requeues_head_on_any_failure (s : LoggerState) (env : FsEnv)
    (umask : Nat) (m : IMessage) (rest : List IMessage)
    (hq : s.queue = m :: rest) :
    ((writeData m env umask).1.result = WriteResult.ok →
        (retryTick s env umask).1.queue = rest) ∧
      (∀ e, (writeData m env umask).1.result = WriteResult.error e →
        (retryTick s env umask).1.queue = m :: rest) := by
  obtain ⟨q, rt⟩ := s
  obtain rfl : q = m :: rest := hq
  rw [retryTick_eq]
  constructor
  · intro hok
    rw [hok]
    cases rest <;> simp [tryToWriteStoredData_queue]
  · intro e he
    rw [he]
    simp [tryToWriteStoredData_queue]

theorem C1_retry_requeues_head_on_any_failure_witness :
    (retryTick ⟨[smallMsg], some 100⟩ envAllOk 0).1.queue = [] ∧
      (retryTick ⟨[smallMsg], some 100⟩ envWriteFail 0).1.queue = [smallMsg] :=
  ⟨(C1_retry_requeues_head_on_any_failure ⟨[smallMsg], some 100⟩ envAllOk 0 smallMsg []
        rfl).1 (by decide),
    (C1_retry_requeues_head_on_any_failure ⟨[smallMsg], some 100⟩ envWriteFail 0 smallMsg []
        rfl).2
      { msg := "Can no write to file d/20230212162600.log", code := none } (by decide)⟩

/-- C6: when the initial writeData of a submission fails with the FILE_LOCKED
code, writeLog appends the message to the tail of the retry queue and resolves
to the caller; when it fails with any other error, writeLog rejects with the
error message and the message is not queued. -/
theorem C6_submit_failure_routing (dirPath : String) (now : DateTime)
    (message : String) (env : FsEnv) (s : LoggerState) (umask : Nat)
    (e : LogException)
    (he : (writeData (buildLogMessage dirPath now message) env umask).1.result =
      WriteResult.error e) :
    (e.code = some ErrCode.FILE_LOCKED →
        (writeLog dirPath now message env s umask).1 = LogResult.resolved ∧
          (writeLog dirPath now message env s umask).2.1.queue =
            s.queue ++ [buildLogMessage dirPath now message]) ∧
      (e.code ≠ some ErrCode.FILE_LOCKED →
        (writeLog dirPath now message env s umask).1 = LogResult.rejected e.msg ∧
          (writeLog dirPath now message env s umask).2.1.queue = s.queue) := by
  constructor
  · intro hc
    constructor <;> simp [writeLog, he, hc, tryToWriteStoredData_queue]
  · intro hc
    constructor <;> simp [writeLog, he, hc]

theorem buildLogMessage_huge (dp : String) (now : DateTime) :
    buildLogMessage dp now hugeMessage =
      { filePath := dp ++ "/" ++ (getFileName now ++ "_big") ++ ".log"
        message := hugeMessage
        isLargeData := true } := by
  have hbig : jsLength hugeMessage > MAX_MESSAGE_SIZE := by
    rw [hugeMessage, jsLength_mk_replicate]
    norm_num [show utf16Units 'a' = 1 from rfl, MAX_MESSAGE_SIZE]
  simp [buildLogMessage, hbig]

theorem C6_submit_failure_routing_witness :
    ((writeLog "d" sampleNow hugeMessage envLockBusy ⟨[], none⟩ 18).1 =
          LogResult.resolved ∧
        (writeLog "d" sampleNow hugeMessage envLockBusy ⟨[], none⟩ 18).2.1.queue =
          ([] : List IMessage) ++ [buildLogMessage "d" sampleNow hugeMessage]) ∧
      ((writeLog "d" sampleNow "hi" envWriteFail ⟨[], none⟩ 18).1 =
          LogResult.rejected "Can no write to file d/20230212162600.log" ∧
        (writeLog "d" sampleNow "hi" envWriteFail ⟨[], none⟩ 18).2.1.queue =
          ([] : List IMessage)) := by
  constructor
  · exact (C6_submit_failure_routing "d" sampleNow hugeMessage envLockBusy ⟨[], none⟩ 18
      { msg := "Can no lock file d/20230212162600_big.log"
        code := some ErrCode.FILE_LOCKED } (by rw [buildLogMessage_huge]; decide)).1 rfl
  · exact (C6_submit_failure_routing "d" sampleNow "hi" envWriteFail ⟨[], none⟩ 18
      { msg := "Can no write to file d/20230212162600.log", code := none }
      (by decide)).2 (by decide)

/-- C7: the retry timer is a singleton: under the timer invariant, a scheduling
request while a timer is pending is a no-op; a timer is armed when the queue is
non-empty with none pending; the handle is cleared when the queue is empty; and
the invariant — a pending timer implies a non-empty queue — is preserved by the
enqueue step and by the retry tick. -/
theorem C7_single_pending_timer (s : LoggerState) (env : FsEnv) (umask : Nat)
    (m : IMessage) :
    (TimerInv s → s.repeatTimer.isSome = true → tryToWriteStoredData s = s) ∧
      (s.queue ≠ [] → s.repeatTimer = none →
        tryToWriteStoredData s = { s with repeatTimer := some 100 }) ∧
      (s.queue = [] → tryToWriteStoredData s = { s with repeatTimer := none }) ∧
      TimerInv (tryToWriteStoredData { s with queue := s.queue ++ [m] }) ∧
      TimerInv (retryTick s env umask).1 := by
  refine ⟨?_, ?_, ?_, timerInv_tryToWriteStoredData _, timerInv_retryTick _ _ _⟩
  · intro hinv hsome
    unfold tryToWriteStoredData
    rw [if_neg (by simpa using hinv hsome), if_pos hsome]
  · intro hq hnone
    unfold tryToWriteStoredData
    rw [if_neg (by simpa using hq), hnone]
    simp
  · intro hq
    unfold tryToWriteStoredData
    rw [if_pos (by simp [hq])]

theorem C7_single_pending_timer_witness :
    tryToWriteStoredData ⟨[smallMsg], some 100⟩ = ⟨[smallMsg], some 100⟩ ∧
      tryToWriteStoredData ⟨[smallMsg], none⟩ = ⟨[smallMsg], some 100⟩ ∧
      tryToWriteStoredData ⟨[], some 100⟩ = ⟨[], none⟩ ∧
      TimerInv (tryToWriteStoredData ⟨[] ++ [smallMsg], some 100⟩) ∧
      TimerInv (retryTick ⟨[smallMsg], some 100⟩ envAllOk 0).1 := by
  have h1 := C7_single_pending_timer ⟨[smallMsg], some 100⟩ envAllOk 0 smallMsg
  have h2 := C7_single_pending_timer ⟨[smallMsg], none⟩ envAllOk 0 smallMsg
  have h3 := C7_single_pending_timer ⟨[], some 100⟩ envAllOk 0 smallMsg
  exact ⟨h1.1 (by decide) rfl, h2.2.1 (by simp) rfl, h3.2.2.1 rfl, h3.2.2.2.1,
    h1.2.2.2.2⟩

/-- C8: a retry cycle is armed with the fixed 100-unit delay; each tick pops
exactly the head message — the queue afterwards is the tail on success and the
original queue on failure, never shorter — reschedules exactly when the queue
is still non-empty after the attempt and clears the timer otherwise; and the
submission path enqueues by appending at the tail of the queue. -/
theorem C8_one_message_per_tick (s : LoggerState) (env : FsEnv) (umask : Nat)
    (m : IMessage) (rest : List IMessage) (d : Nat)
    (hq : s.queue = m :: rest) (ht : s.repeatTimer = some d) :
    (tryToWriteStoredData { s with repeatTimer := none }).repeatTimer = some 100 ∧
      ((retryTick s env umask).1.queue = rest ∨
        (retryTick s env umask).1.queue = m :: rest) ∧
      ((retryTick s env umask).1.repeatTimer =
        if (retryTick s env umask).1.queue.isEmpty then none else some 100) ∧
      (∀ (dp : String) (nw : DateTime) (msg : String) (e : LogException),
        (writeData (buildLogMessage dp nw msg) env umask).1.result =
            WriteResult.error e →
          e.code = some ErrCode.FILE_LOCKED →
          (writeLog dp nw msg env s umask).2.1.queue =
            s.queue ++ [buildLogMessage dp nw msg]) := by
  obtain ⟨q, rt⟩ := s
  obtain rfl : q = m :: rest := hq
  refine ⟨?_, ?_, ?_, ?_⟩
  · unfold tryToWriteStoredData
    simp
  · rw [retryTick_eq]
    cases hres : (writeData m env umask).1.result with
    | ok =>
        cases rest with
        | nil => left; simp
        | cons a l => left; simp [tryToWriteStoredData_queue]
    | error e => right; simp [tryToWriteStoredData_queue]
  · rw [retryTick_eq]
    cases hres : (writeData m env umask).1.result with
    | ok =>
        cases rest with
        | nil => simp
        | cons a l => simp [tryToWriteStoredData]
    | error e => simp [tryToWriteStoredData]
  · intro dp nw msg e he hc
    simp [writeLog, he, hc, tryToWriteStoredData_queue]

theorem C8_one_message_per_tick_witness :
    (tryToWriteStoredData ⟨[smallMsg], none⟩).repeatTimer = some 100 ∧
      ((retryTick ⟨[smallMsg], some 100⟩ envLockBusy 0).1.queue = [] ∨
        (retryTick ⟨[smallMsg], some 100⟩ envLockBusy 0).1.queue = [smallMsg]) ∧
      ((retryTick ⟨[smallMsg], some 100⟩ envLockBusy 0).1.repeatTimer =
        if (retryTick ⟨[smallMsg], some 100⟩ envLockBusy 0).1.queue.isEmpty then none
        else some 100) ∧
      (writeLog "d" sampleNow hugeMessage envLockBusy ⟨[smallMsg], some 100⟩ 0).2.1.queue =
        [smallMsg] ++ [buildLogMessage "d" sampleNow hugeMessage] := by
  have h := C8_one_message_per_tick ⟨[smallMsg], some 100⟩ envLockBusy 0 smallMsg [] 100
    rfl rfl
  exact ⟨h.1, h.2.1, h.2.2.1,
    h.2.2.2 "d" sampleNow hugeMessage
      { msg := "Can no lock file d/20230212162600_big.log"
        code := some ErrCode.FILE_LOCKED } (by rw [buildLogMessage_huge]; decide) rfl⟩

end LsdLogger
